import Mathlib

/-!
Verification of the pgprotocol server emulator (C sources) against its
natural-language specification.  The C code is shallowly embedded: wire
messages are lists of byte values (`Nat`, each < 256 where it matters),
each `send` call is modelled as the exact list of bytes the call writes,
and each handler returns the list of frames it sends together with its
C return value.
-/

/-- Byte values of a string literal (UTF-8 ASCII content, no terminator). -/
def str (s : String) : List Nat := s.data.map Char.toNat

/-- Big-endian 32-bit encoding, as produced by `htonl`. -/
def be32 (n : Nat) : List Nat :=
  [n / 16777216 % 256, n / 65536 % 256, n / 256 % 256, n % 256]

/-- Big-endian 16-bit encoding, as produced by `htons`. -/
def be16 (n : Nat) : List Nat := [n / 256 % 256, n % 256]

/-- Decode a big-endian 32-bit integer from the first four bytes, as `ntohl`
on the bytes `memcpy`ed from the wire. -/
def be32dec (l : List Nat) : Nat :=
  l.getD 0 0 * 16777216 + l.getD 1 0 * 65536 + l.getD 2 0 * 256 + l.getD 3 0

/-- Type byte of a framed message (its first byte). -/
def frameType (f : List Nat) : Nat := f.headD 0

/-- The length field of a typed frame: bytes 1..4, big-endian. -/
def frameLenField (f : List Nat) : Nat := be32dec (f.drop 1)

/-- The payload bytes of a typed frame: everything after the length field. -/
def framePayload (f : List Nat) : List Nat := f.drop 5

/-- The framing invariant of the spec: the length field equals 4 plus the
number of payload bytes actually present after the length field. -/
def frameOk (f : List Nat) : Prop := frameLenField f = 4 + (framePayload f).length

instance (f : List Nat) : Decidable (frameOk f) := by
  unfold frameOk; infer_instance

/-- `pg_send_message` (pg_protocol.c): writes the type byte, `htonl(length+4)`,
then the `length` content bytes, in one `write` of `length+5` bytes. -/
def pg_send_message (type : Nat) (buffer : List Nat) : List Nat :=
  type :: (be32 (buffer.length + 4) ++ buffer)

/-- `pg_send_error` (pg_protocol.c): ErrorResponse with severity `ERROR`,
the given SQLSTATE code and message, and the field-list terminator. -/
def pg_send_error (code message : List Nat) : List Nat :=
  pg_send_message 69
    (83 :: (str ("ERROR") ++ [0]) ++ 67 :: (code ++ [0]) ++ 77 :: (message ++ [0]) ++ [0])

/-- `pg_send_command_complete` (pg_protocol.c): tag plus its NUL terminator. -/
def pg_send_command_complete (tag : List Nat) : List Nat :=
  pg_send_message 67 (tag ++ [0])

/-- `pg_send_ready_for_query` (pg_protocol.c): one status byte. -/
def pg_send_ready_for_query (status : Nat) : List Nat :=
  pg_send_message 90 [status]

/-- One field descriptor of `pg_send_row_description` (pg_protocol.c):
name+NUL, table OID 0, column attr 0, type OID, type size 0, type mod 0,
format 0. -/
def rowDescField (name : List Nat) (typeOid : Nat) : List Nat :=
  name ++ [0] ++ [0, 0, 0, 0] ++ [0, 0] ++ be32 typeOid ++ [0, 0] ++ [0, 0, 0, 0] ++ [0, 0]

/-- `pg_send_row_description` (pg_protocol.c). -/
def pg_send_row_description (fields : List (List Nat × Nat)) : List Nat :=
  pg_send_message 84 (be16 fields.length ++ fields.flatMap (fun f => rowDescField f.1 f.2))

/-- One value of `pg_send_data_row`: `htonl(-1)` for NULL, else length-prefixed
bytes. -/
def dataRowValue : Option (List Nat) → List Nat
  | none => [255, 255, 255, 255]
  | some v => be32 v.length ++ v

/-- `pg_send_data_row` (pg_protocol.c). -/
def pg_send_data_row (values : List (Option (List Nat))) : List Nat :=
  pg_send_message 68 (be16 values.length ++ values.flatMap dataRowValue)

/-- `PGClientConn` (pg_server.h): the per-session fields the claims touch. -/
structure PGClientConn where
  fd : Nat
  user : Option (List Nat)
  database : Option (List Nat)
  authenticated : Bool
  txn_status : Nat
  backend_pid : Nat
  secret_key : Nat
  deriving DecidableEq, Repr

/-- The hand-written `auth_ok` frame of `pg_server_send_startup_messages`. -/
def auth_ok_frame : List Nat := [82, 0, 0, 0, 8, 0, 0, 0, 0]

/-- A ParameterStatus frame as assembled in `pg_server_send_startup_messages`:
total size `len = 4+1+|name|+1+|value|+1`, length field `len-1`. -/
def paramStatusFrame (name value : List Nat) : List Nat :=
  let len := 4 + 1 + name.length + 1 + value.length + 1
  83 :: (be32 (len - 1) ++ name ++ [0] ++ value ++ [0])

/-- The four fixed parameters sent during startup. -/
def startup_params : List (List Nat × List Nat) :=
  [(str ("server_version"), str ("14.0")),
   (str ("client_encoding"), str ("UTF8")),
   (str ("server_encoding"), str ("UTF8")),
   (str ("DateStyle"), str ("ISO, MDY"))]

/-- The hand-written BackendKeyData frame: length field 12, pid, secret. -/
def backendKeyDataFrame (pid secret : Nat) : List Nat :=
  [75, 0, 0, 0, 12] ++ be32 pid ++ be32 secret

/-- The hand-written `ReadyForQuery` frame with hard-coded status `I`. -/
def readyForQueryIdleFrame : List Nat := [90, 0, 0, 0, 5, 73]

/-- `pg_server_send_startup_messages` (pg_server.c): AuthenticationOk, four
ParameterStatus frames, BackendKeyData, ReadyForQuery(I). -/
def pg_server_send_startup_messages (client : PGClientConn) : List (List Nat) :=
  [auth_ok_frame] ++ startup_params.map (fun p => paramStatusFrame p.1 p.2) ++
    [backendKeyDataFrame client.backend_pid client.secret_key, readyForQueryIdleFrame]

/-- The C string starting at offset `i` of the receive buffer (bytes up to the
first NUL); data past the received bytes is treated as zeroed. -/
def cstrAt (buf : List Nat) (i : Nat) : List Nat :=
  (buf.drop i).takeWhile (fun b => b != 0)

/-- The parameter-scanning loop of `pg_default_startup_callback`: from offset 8,
read (key, value) NUL-terminated pairs while `p < length`, stop at an empty
key, record `user` and `database`.  Each iteration advances `p` by at least 2,
so `length` steps of fuel are never exhausted. -/
def parseStartupLoop (buf : List Nat) (length : Nat) :
    Nat → Nat → Option (List Nat) → Option (List Nat) →
    Option (List Nat) × Option (List Nat)
  | 0, _, user, database => (user, database)
  | fuel + 1, p, user, database =>
    if p < length then
      let param := cstrAt buf p
      let p1 := p + param.length + 1
      let value := cstrAt buf p1
      let p2 := p1 + value.length + 1
      if param.isEmpty then (user, database)
      else
        let user' := if param = str ("user") then some value else user
        let database' := if param = str ("database") then some value else database
        parseStartupLoop buf length fuel p2 user' database'
    else (user, database)

/-- `pg_default_startup_callback` (pg_server.c): parse the parameter pairs
(there is no protocol-version check), record user/database, then reply with
the startup message sequence, returning 0. -/
def pg_default_startup_callback (client : PGClientConn) (buffer : List Nat)
    (length : Nat) : PGClientConn × List (List Nat) × Int :=
  let ud := parseStartupLoop buffer length length 8 none none
  let client' := { client with
    user := match ud.1 with | some v => some v | none => client.user,
    database := match ud.2 with | some v => some v | none => client.database }
  (client', pg_server_send_startup_messages client', 0)

/-- `pg_default_query_callback` (pg_server.c): sends the first 5 bytes of
`empty_response` (an EmptyQueryResponse frame) and returns `send`'s result. -/
def pg_default_query_callback (query : List Nat) : List (List Nat) × Int :=
  ([[73, 0, 0, 0, 4]], 5)

/-- `pg_default_password_callback` (pg_server.c): AuthenticationOk. -/
def pg_default_password_callback (password : List Nat) : List (List Nat) × Int :=
  ([[82, 0, 0, 0, 8, 0, 0, 0, 0]], 9)

/-- `pg_default_terminate_callback` (pg_server.c): sends nothing, returns 0. -/
def pg_default_terminate_callback : List (List Nat) × Int := ([], 0)

/-- `pg_default_sync_callback` (pg_server.c): one ReadyForQuery frame with the
hard-coded status byte `I`; the session's `txn_status` is not consulted. -/
def pg_default_sync_callback (client : PGClientConn) : List (List Nat) × Int :=
  ([[90, 0, 0, 0, 5, 73]], 6)

/-- `pg_default_describe_callback` (pg_server.c): NoData. -/
def pg_default_describe_callback (describe_type : Nat) (name : List Nat) :
    List (List Nat) × Int :=
  ([[110, 0, 0, 0, 4]], 5)

/-- `pg_default_bind_callback` (pg_server.c): BindComplete. -/
def pg_default_bind_callback (data : List Nat) (length : Int) :
    List (List Nat) × Int :=
  ([[50, 0, 0, 0, 4]], 5)

/-- `pg_default_execute_callback` (pg_server.c): EmptyQueryResponse followed by
CommandComplete with an empty tag. -/
def pg_default_execute_callback (portal : List Nat) (max_rows : Int) :
    List (List Nat) × Int :=
  ([[73, 0, 0, 0, 4], [67, 0, 0, 0, 5, 0]], 6)

/-- `pg_default_parse_callback` (pg_server.c): ParseComplete. -/
def pg_default_parse_callback (query stmt_name : List Nat) (num_params : Nat) :
    List (List Nat) × Int :=
  ([[49, 0, 0, 0, 4]], 5)

/-- `pg_default_cancel_callback` (pg_server.c): sends nothing, returns 0. -/
def pg_default_cancel_callback (pid key : Nat) : List (List Nat) × Int := ([], 0)

/-- `pg_default_ssl_request_callback` (pg_server.c): the single byte `N`
(not a framed message). -/
def pg_default_ssl_request_callback : List (List Nat) × Int := ([[78]], 1)

/-- The literal `error_msg` array of `pg_default_unknown_callback`: 42 bytes
whose hand-written length field is 85 and whose SQLSTATE field is `42601`. -/
def unknown_error_msg : List Nat :=
  [69, 0, 0, 0, 85] ++
    83 :: (str ("ERROR") ++ [0]) ++
    67 :: (str ("42601") ++ [0]) ++
    77 :: (str ("Unknown message type") ++ [0]) ++ [0]

/-- `pg_default_unknown_callback` (pg_server.c): the fixed ErrorResponse bytes
followed by a ReadyForQuery(I) frame. -/
def pg_default_unknown_callback (msg_type : Nat) (data : List Nat)
    (length : Int) : List (List Nat) × Int :=
  ([unknown_error_msg, [90, 0, 0, 0, 5, 73]], 6)

/-- `pg_server_handle_client` (pg_server.c): take the received bytes, read the
type byte and length field, and dispatch to the (default) callback of the
variant; any first byte 0 goes to the startup callback. -/
def pg_server_handle_client (client : PGClientConn) (buffer : List Nat) :
    PGClientConn × List (List Nat) × Int :=
  let msg_type := buffer.headD 0
  let length := be32dec (buffer.drop 1)
  if msg_type = 0 then
    pg_default_startup_callback client buffer buffer.length
  else if msg_type = 81 then (client, pg_default_query_callback (cstrAt buffer 5))
  else if msg_type = 80 then
    (client, pg_default_parse_callback (cstrAt buffer 5) [] 0)
  else if msg_type = 66 then
    (client, pg_default_bind_callback (buffer.drop 5) ((length : Int) - 4))
  else if msg_type = 69 then
    (client, pg_default_execute_callback (cstrAt buffer 5) 0)
  else if msg_type = 68 then
    (client, pg_default_describe_callback (buffer.getD 5 0) (cstrAt buffer 6))
  else if msg_type = 83 then (client, pg_default_sync_callback client)
  else if msg_type = 88 then (client, pg_default_terminate_callback)
  else (client, pg_default_unknown_callback msg_type (buffer.drop 5) ((length : Int) - 4))

/-- The removal decision of `pg_server_run` (pg_server.c): a client is removed
exactly when `pg_server_handle_client` returned a negative value. -/
def runLoopRemoves (ret : Int) : Bool := ret < 0

/-- Fuelled parser for the field list of an ErrorResponse payload: repeated
(field-code byte, NUL-terminated value) pairs up to the terminator byte 0. -/
def parseErrFieldsAux : Nat → List Nat → List (Nat × List Nat)
  | 0, _ => []
  | _, [] => []
  | fuel + 1, code :: rest =>
    if code = 0 then []
    else
      let v := rest.takeWhile (fun b => b != 0)
      (code, v) :: parseErrFieldsAux fuel (rest.drop (v.length + 1))

/-- Parse the field list of an ErrorResponse payload. -/
def parseErrFields (payload : List Nat) : List (Nat × List Nat) :=
  parseErrFieldsAux payload.length payload

namespace PgQuery

/-- Query classification of pg_query.c. -/
inductive QueryType where
  | SELECT | INSERT | UPDATE | DELETE
  | BEGIN | COMMIT | ROLLBACK
  | CREATE | DROP | ALTER | UNKNOWN
  deriving DecidableEq, Repr

/-- C `isspace` on the ASCII bytes it recognises. -/
def isspace (b : Nat) : Bool :=
  b == 32 || b == 9 || b == 10 || b == 11 || b == 12 || b == 13

/-- C `toupper` on byte values. -/
def toupper (b : Nat) : Nat := if 97 ≤ b ∧ b ≤ 122 then b - 32 else b

/-- The first-word extraction of `pg_get_query_type`: skip leading whitespace,
collect bytes until NUL or whitespace, at most 15 of them, uppercased. -/
def firstWord (q : List Nat) : List Nat :=
  (((q.dropWhile isspace).takeWhile (fun b => b != 0 && !isspace b)).take 15).map toupper

/-- The `strcmp` chain of `pg_get_query_type`, applied to the first word. -/
def classifyWord (w : List Nat) : QueryType :=
  if w = str ("SELECT") then .SELECT
  else if w = str ("INSERT") then .INSERT
  else if w = str ("UPDATE") then .UPDATE
  else if w = str ("DELETE") then .DELETE
  else if w = str ("BEGIN") then .BEGIN
  else if w = str ("COMMIT") then .COMMIT
  else if w = str ("ROLLBACK") then .ROLLBACK
  else if w = str ("CREATE") then .CREATE
  else if w = str ("DROP") then .DROP
  else if w = str ("ALTER") then .ALTER
  else .UNKNOWN

/-- `pg_get_query_type` (pg_query.c): extract the first word, then compare. -/
def pg_get_query_type (q : List Nat) : QueryType := classifyWord (firstWord q)

/-- `pg_handle_select` (pg_query.c): fixed demonstration result set, then
ReadyForQuery with the session's (unchanged) transaction status. -/
def pg_handle_select (txn : Nat) : Nat × List (List Nat) × Int :=
  (txn,
   [pg_send_row_description [(str ("id"), 23), (str ("name"), 25), (str ("value"), 25)],
    pg_send_data_row [some (str ("1")), some (str ("Row 1")), some (str ("Value 1"))],
    pg_send_data_row [some (str ("2")), some (str ("Row 2")), some (str ("Value 2"))],
    pg_send_command_complete (str ("SELECT 2")),
    pg_send_ready_for_query txn], 0)

/-- `pg_handle_insert` (pg_query.c). -/
def pg_handle_insert (txn : Nat) : Nat × List (List Nat) × Int :=
  (txn, [pg_send_command_complete (str ("INSERT 0 1")), pg_send_ready_for_query txn], 0)

/-- `pg_handle_update` (pg_query.c). -/
def pg_handle_update (txn : Nat) : Nat × List (List Nat) × Int :=
  (txn, [pg_send_command_complete (str ("UPDATE 1")), pg_send_ready_for_query txn], 0)

/-- `pg_handle_delete` (pg_query.c). -/
def pg_handle_delete (txn : Nat) : Nat × List (List Nat) × Int :=
  (txn, [pg_send_command_complete (str ("DELETE 1")), pg_send_ready_for_query txn], 0)

/-- `pg_handle_transaction` (pg_query.c): assign the new transaction status
(`T` = 84 for BEGIN, `I` = 73 for COMMIT/ROLLBACK), send CommandComplete, then
ReadyForQuery with the just-updated `client->txn_status`. -/
def pg_handle_transaction (txn : Nat) (t : QueryType) : Nat × List (List Nat) × Int :=
  match t with
  | .BEGIN =>
    let txn' := 84
    (txn', [pg_send_command_complete (str ("BEGIN")), pg_send_ready_for_query txn'], 0)
  | .COMMIT =>
    let txn' := 73
    (txn', [pg_send_command_complete (str ("COMMIT")), pg_send_ready_for_query txn'], 0)
  | .ROLLBACK =>
    let txn' := 73
    (txn', [pg_send_command_complete (str ("ROLLBACK")), pg_send_ready_for_query txn'], 0)
  | _ => (txn, [], -1)

/-- `pg_default_query_callback` (pg_query.c): dispatch on the query type;
unsupported types get ErrorResponse 42601 then ReadyForQuery. -/
def pg_default_query_callback (txn : Nat) (q : List Nat) : Nat × List (List Nat) × Int :=
  match pg_get_query_type q with
  | .SELECT => pg_handle_select txn
  | .INSERT => pg_handle_insert txn
  | .UPDATE => pg_handle_update txn
  | .DELETE => pg_handle_delete txn
  | .BEGIN => pg_handle_transaction txn .BEGIN
  | .COMMIT => pg_handle_transaction txn .COMMIT
  | .ROLLBACK => pg_handle_transaction txn .ROLLBACK
  | _ =>
    (txn, [pg_send_error (str ("42601")) (str ("Unsupported query type")),
           pg_send_ready_for_query txn], -1)

end PgQuery

/-- `pg_server_add_client`: the freshly initialised `PGClientConn` with
`txn_status = I`, `backend_pid = getpid() + client_fd` (the constant `g`
stands for `getpid()`), and `secret_key = rand()` (the parameter `secret`). -/
def newClient (g fd secret : Nat) : PGClientConn :=
  { fd := fd, user := none, database := none, authenticated := false,
    txn_status := 73, backend_pid := g + fd, secret_key := secret }

/-- `PGServer`'s client table: `max_connections` slots plus `num_clients`. -/
structure PGServerState where
  clients : List (Option PGClientConn)
  num_clients : Nat
  deriving DecidableEq, Repr

/-- The slot-filling loop of `pg_server_add_client`: put the client in the
first empty slot, or report failure when the table is full. -/
def placeFirst (x : PGClientConn) : List (Option PGClientConn) →
    Option (List (Option PGClientConn))
  | [] => none
  | none :: rest => some (some x :: rest)
  | some c :: rest => (placeFirst x rest).map (fun l => some c :: l)

/-- `pg_server_add_client` (pg_server.c): reject when at the connection cap,
otherwise initialise a client and put it in the first empty slot. -/
def pg_server_add_client (g max : Nat) (s : PGServerState) (fd secret : Nat) :
    PGServerState :=
  if max ≤ s.num_clients then s
  else
    match placeFirst (newClient g fd secret) s.clients with
    | some cl => { clients := cl, num_clients := s.num_clients + 1 }
    | none => s

/-- The slot-clearing loop of `pg_server_remove_client`, with the client
identified by its fd (live fds are distinct, so this matches the pointer
comparison in the C source). -/
def clearFirstFd (fd : Nat) : List (Option PGClientConn) → List (Option PGClientConn)
  | [] => []
  | some c :: rest =>
    if c.fd = fd then none :: rest else some c :: clearFirstFd fd rest
  | none :: rest => none :: clearFirstFd fd rest

/-- `pg_server_remove_client` (pg_server.c): free the slot holding the client
and decrement `num_clients`; no change if the client is not in the table. -/
def pg_server_remove_client (s : PGServerState) (fd : Nat) : PGServerState :=
  if s.clients.any (fun o => o.elim false (fun c => c.fd == fd)) then
    { clients := clearFirstFd fd s.clients, num_clients := s.num_clients - 1 }
  else s

/-- The fds of the live sessions. -/
def liveFds (s : PGServerState) : List Nat :=
  s.clients.filterMap (fun o => o.map (fun c => c.fd))

/-- The server states reachable through the reactor: the table starts empty,
clients are added on accept (the OS never hands out an fd that is already
open, hence the freshness premise) and removed on close. -/
inductive Reach (g max : Nat) : PGServerState → Prop where
  | init : Reach g max { clients := List.replicate max none, num_clients := 0 }
  | add {s : PGServerState} {fd secret : Nat} : Reach g max s → fd ∉ liveFds s →
      Reach g max (pg_server_add_client g max s fd secret)
  | remove {s : PGServerState} {fd : Nat} : Reach g max s →
      Reach g max (pg_server_remove_client s fd)

/-- The hex-character table of `bin_to_hex` (pg_auth.c). -/
def hex_chars : List Nat := str ("0123456789abcdef")

/-- `bin_to_hex` (pg_auth.c): two table-indexed hex characters per byte,
using shift and mask. -/
def bin_to_hex (data : List Nat) : List Nat :=
  data.flatMap (fun b => [hex_chars.getD ((b >>> 4) &&& 15) 0, hex_chars.getD (b &&& 15) 0])

/-- Lowercase hexadecimal digit, stated arithmetically (spec side). -/
def hexDigitSpec (n : Nat) : Nat := if n < 10 then 48 + n else 97 + (n - 10)

/-- Lowercase hexadecimal encoding, stated arithmetically (spec side). -/
def hexEncodeSpec (data : List Nat) : List Nat :=
  data.flatMap (fun b => [hexDigitSpec (b / 16), hexDigitSpec (b % 16)])

/-- `pg_md5_hash` (pg_auth.c), parametric in the external MD5 primitive:
hash password++username, hex-encode, hash that hex string++salt, and emit
`md5` followed by the hex encoding of the second digest. -/
def pg_md5_hash (md5 : List Nat → List Nat) (password username salt : List Nat) :
    List Nat :=
  let hex := bin_to_hex (md5 (password ++ username))
  str ("md5") ++ bin_to_hex (md5 (hex ++ salt))

/-- A session that is inside an explicit transaction (`txn_status = T`). -/
def clientT : PGClientConn :=
  { fd := 7, user := some (str ("u")), database := some (str ("u")),
    authenticated := true, txn_status := 84, backend_pid := 1107, secret_key := 4242 }

/-- A freshly accepted session that has not yet completed startup. -/
def clientA : PGClientConn :=
  { fd := 9, user := none, database := none, authenticated := false,
    txn_status := 73, backend_pid := 1109, secret_key := 31337 }

/-- The 16-byte CancelRequest wire image for pid 1234 and secret 5678:
length 16, magic 80877102, pid, key. -/
def cancel_request_buffer : List Nat :=
  [0, 0, 0, 16] ++ [4, 210, 22, 46] ++ [0, 0, 4, 210] ++ [0, 0, 22, 46]

/-- A StartupMessage whose protocol version is 2.0 (`0x00020000`, high 16 bits
equal to 2) carrying `user=u`: 16 bytes in all. -/
def startup_v2_buffer : List Nat :=
  be32 16 ++ be32 131072 ++ str ("user") ++ [0] ++ str ("u") ++ [0] ++ [0]

/-- A two-slot server table after accepting fds 3 and 4. -/
def serverTwo : PGServerState :=
  pg_server_add_client 100 2
    (pg_server_add_client 100 2
      { clients := List.replicate 2 none, num_clients := 0 } 3 111) 4 222

/-- A stand-in for the external MD5 primitive, used to instantiate the
parametric correctness statement of `pg_md5_hash`. -/
def md5stub : List Nat → List Nat := fun _ => List.range 16

/-- The relation under which adjacent table slots carry distinct fds. -/
def OptFdNe (o1 o2 : Option PGClientConn) : Prop :=
  ∀ a b, o1 = some a → o2 = some b → a.fd ≠ b.fd

/-- Invariant of the client table: live fds are pairwise distinct, and every
live client's pid is `getpid() + fd`. -/
def TableInv (g : Nat) (l : List (Option PGClientConn)) : Prop :=
  l.Pairwise OptFdNe ∧ ∀ c : PGClientConn, some c ∈ l → c.backend_pid = g + c.fd

/-! ## Framing lemmas -/

theorem be32dec_be32_append (n : Nat) (rest : List Nat) (h : n < 4294967296) :
    be32dec (be32 n ++ rest) = n := by
  simp only [be32, be32dec, List.cons_append, List.nil_append,
    List.getD_cons_zero, List.getD_cons_succ]
  omega

theorem pg_send_message_frameOk (t : Nat) (buf : List Nat)
    (h : buf.length + 4 < 4294967296) : frameOk (pg_send_message t buf) := by
  unfold frameOk frameLenField framePayload pg_send_message
  have h1 : (t :: (be32 (buf.length + 4) ++ buf)).drop 1
      = be32 (buf.length + 4) ++ buf := rfl
  have h2 : (t :: (be32 (buf.length + 4) ++ buf)).drop 5 = buf := by
    simp [be32]
  rw [h1, h2, be32dec_be32_append _ _ h]
  omega

example : pg_send_message 90 [73] = [90, 0, 0, 0, 5, 73] := by decide

/-- C1: For every backend message the server emits, the length field equals
4 plus the payload bytes actually sent: this holds for every frame built by
`pg_send_message`, for each hand-written startup frame, and for every default
handler's framed reply — except the ErrorResponse of
`pg_default_unknown_callback`, whose hand-written length field is 85 while
only 37 payload bytes follow it (the correct field would be 41).  The claim's
invariant is the evident intent (the byte is commented `Length` in the
source), so this is a bug in the code, exhibited by the final conjuncts. -/
theorem pg_frame_length_code_bug :
    (∀ (t : Nat) (buf : List Nat), buf.length + 4 < 4294967296 →
        frameOk (pg_send_message t buf)) ∧
    frameOk auth_ok_frame ∧
    startup_params.Forall (fun p => frameOk (paramStatusFrame p.1 p.2)) ∧
    (∀ pid secret : Nat, frameOk (backendKeyDataFrame pid secret)) ∧
    frameOk readyForQueryIdleFrame ∧
    (∀ pw, ((pg_default_password_callback pw).1).Forall frameOk) ∧
    (∀ c, ((pg_default_sync_callback c).1).Forall frameOk) ∧
    (∀ dt n, ((pg_default_describe_callback dt n).1).Forall frameOk) ∧
    (∀ d l, ((pg_default_bind_callback d l).1).Forall frameOk) ∧
    (∀ p m, ((pg_default_execute_callback p m).1).Forall frameOk) ∧
    (∀ q sn np, ((pg_default_parse_callback q sn np).1).Forall frameOk) ∧
    (∀ q, ((pg_default_query_callback q).1).Forall frameOk) ∧
    ¬ frameOk unknown_error_msg ∧
    frameLenField unknown_error_msg = 85 ∧
    4 + (framePayload unknown_error_msg).length = 41 := by
  refine ⟨pg_send_message_frameOk, by decide, by decide, ?_, by decide,
    fun pw => by simp only [pg_default_password_callback]; decide,
    fun c => by simp only [pg_default_sync_callback]; decide,
    fun dt n => by simp only [pg_default_describe_callback]; decide,
    fun d l => by simp only [pg_default_bind_callback]; decide,
    fun p m => by simp only [pg_default_execute_callback]; decide,
    fun q sn np => by simp only [pg_default_parse_callback]; decide,
    fun q => by simp only [pg_default_query_callback]; decide,
    by decide, by decide, by decide⟩
  intro pid secret
  simp [frameOk, frameLenField, framePayload, backendKeyDataFrame, be32, be32dec]

/-- C1 (witness): the general `pg_send_message` conjunct applied at a concrete
query-sized buffer, with its size bound discharged. -/
theorem pg_frame_length_code_bug_witness :
    frameOk (pg_send_message 81 (str ("SELECT 1") ++ [0])) :=
  pg_frame_length_code_bug.1 81 (str ("SELECT 1") ++ [0]) (by decide)

/-! ## Sync (C2) -/

/-- C2 (counterexample): a Sync received by a session whose transaction status
is `T` (84) is answered by exactly one ReadyForQuery frame, but its status
byte is the hard-coded `I` (73), not the session's `txn_status`. -/
theorem sync_txn_status_counterexample :
    (pg_server_handle_client clientT [83, 0, 0, 0, 4]).2.1 = [[90, 0, 0, 0, 5, 73]] ∧
    clientT.txn_status = 84 ∧
    ¬ (pg_server_handle_client clientT [83, 0, 0, 0, 4]).2.1
        = [pg_send_ready_for_query clientT.txn_status] := by decide

/-- C2 (amended): for every Sync message received, the server emits exactly
one ReadyForQuery frame, and its status byte is always `I` (73), regardless
of the session's current `txn_status`. -/
theorem sync_reply_always_idle (c : PGClientConn) :
    pg_server_handle_client c [83, 0, 0, 0, 4] = (c, [[90, 0, 0, 0, 5, 73]], 6) := rfl

/-! ## Unknown message type (C3) -/

/-- C3 (counterexample): the SQLSTATE code field of the ErrorResponse sent by
`pg_default_unknown_callback` is `42601`, not `08P01`. -/
theorem unknown_sqlstate_counterexample :
    (parseErrFields (framePayload unknown_error_msg)).lookup 67 = some (str ("42601")) ∧
    str ("42601") ≠ str ("08P01") := by decide

/-- C3 (amended): for every inbound message whose type byte matches no known
variant, the default handler replies with an ErrorResponse whose SQLSTATE
code field is `42601` (followed by a ReadyForQuery(I) frame). -/
theorem unknown_reply_error_42601 (c : PGClientConn) (buf : List Nat)
    (h : buf.headD 0 ∉ ([0, 81, 80, 66, 69, 68, 83, 88] : List Nat)) :
    (pg_server_handle_client c buf).2.1 = [unknown_error_msg, [90, 0, 0, 0, 5, 73]] ∧
    (parseErrFields (framePayload unknown_error_msg)).lookup 67 = some (str ("42601")) := by
  refine ⟨?_, by decide⟩
  simp only [List.mem_cons, List.not_mem_nil, or_false, not_or,
    List.headD_eq_head?] at h
  obtain ⟨h0, h81, h80, h66, h69, h68, h83, h88⟩ := h
  simp [pg_server_handle_client, List.headD_eq_head?, h0, h81, h80, h66, h69, h68,
    h83, h88, pg_default_unknown_callback]

/-- C3 (witness): the amended statement at the concrete unknown type byte 1. -/
theorem unknown_reply_error_42601_witness :
    (pg_server_handle_client clientT [1, 0, 0, 0, 4]).2.1
      = [unknown_error_msg, [90, 0, 0, 0, 5, 73]] ∧
    (parseErrFields (framePayload unknown_error_msg)).lookup 67 = some (str ("42601")) :=
  unknown_reply_error_42601 clientT [1, 0, 0, 0, 4] (by decide)

/-! ## Startup version handling (C4) -/

/-- C4 (counterexample): a StartupMessage with protocol version `0x00020000`
(high 16 bits = 2) is answered with the full startup sequence — frame types
AuthenticationOk, 4 ParameterStatus, BackendKeyData, ReadyForQuery — with no
ErrorResponse (type 69) anywhere, the `user` parameter is recorded, and the
callback returns 0, so the connection is not closed. -/
theorem startup_version_counterexample :
    (pg_server_handle_client clientA startup_v2_buffer).2.1.map frameType
      = [82, 83, 83, 83, 83, 75, 90] ∧
    ((pg_server_handle_client clientA startup_v2_buffer).2.1.map frameType).contains 69
      = false ∧
    (pg_server_handle_client clientA startup_v2_buffer).2.2 = 0 ∧
    (pg_server_handle_client clientA startup_v2_buffer).1.user = some (str ("u")) := by
  decide

/-- C4 (amended): the default startup callback performs no protocol-version
check: for every startup-class buffer it replies with the startup sequence
(AuthenticationOk, four ParameterStatus frames, BackendKeyData,
ReadyForQuery) and returns 0; in particular no ErrorResponse is emitted and
the connection is not closed, whatever the version field holds. -/
theorem startup_no_version_check (c : PGClientConn) (buffer : List Nat) (length : Nat) :
    (pg_default_startup_callback c buffer length).2.1.map frameType
      = [82, 83, 83, 83, 83, 75, 90] ∧
    (pg_default_startup_callback c buffer length).2.2 = 0 ∧
    runLoopRemoves (pg_default_startup_callback c buffer length).2.2 = false := by
  refine ⟨?_, rfl, rfl⟩
  simp [pg_default_startup_callback, pg_server_send_startup_messages, startup_params,
    paramStatusFrame, backendKeyDataFrame, auth_ok_frame, readyForQueryIdleFrame,
    frameType]

/-! ## CancelRequest (C5) -/

/-- C5: a CancelRequest's first byte is 0, so `pg_server_handle_client`
dispatches it to the startup callback, which sends the seven startup reply
frames on the originating connection; the cancel callback (which sends
nothing) is never reached.  The spec's no-reply requirement is the evident
intent — `pg_default_cancel_callback` exists precisely to send no reply —
so this is a bug in the dispatcher. -/
theorem cancel_request_gets_reply :
    (pg_server_handle_client clientA cancel_request_buffer).2.1.length = 7 ∧
    (pg_server_handle_client clientA cancel_request_buffer).2.1.map frameType
      = [82, 83, 83, 83, 83, 75, 90] ∧
    (pg_server_handle_client clientA cancel_request_buffer).2.1 ≠ [] ∧
    (pg_default_cancel_callback 1234 5678).1 = [] := by decide

/-! ## Terminate (C6) -/

/-- C6 (counterexample): processing a Terminate frame sends no reply and
returns 0, and the run loop removes a client only on a negative return, so
the session is not closed as a consequence of the Terminate message. -/
theorem terminate_no_close_counterexample :
    (pg_server_handle_client clientT [88, 0, 0, 0, 4]).2.1 = [] ∧
    (pg_server_handle_client clientT [88, 0, 0, 0, 4]).2.2 = 0 ∧
    runLoopRemoves (pg_server_handle_client clientT [88, 0, 0, 0, 4]).2.2 = false := by
  decide

/-- C6 (amended): for every Terminate message received, the server sends no
reply frame, but the session is not closed by processing the message: the
terminate callback returns 0 and `pg_server_run` removes a client only when
the handler returns a negative value (removal happens only later, when a
subsequent `recv` reports EOF after the peer itself closes). -/
theorem terminate_no_reply_no_removal (c : PGClientConn) :
    pg_server_handle_client c [88, 0, 0, 0, 4] = (c, [], 0) ∧
    runLoopRemoves (pg_server_handle_client c [88, 0, 0, 0, 4]).2.2 = false :=
  ⟨rfl, rfl⟩

/-! ## Default query handler (C7) -/

/-- C7 (counterexample): on the query `SELECT 1` the default query handler of
pg_server.c replies with a single EmptyQueryResponse frame (type list `[73]`,
not `[73, 67]`), and the pg_query.c variant replies with RowDescription,
DataRow, DataRow, CommandComplete, ReadyForQuery — so neither replies with
EmptyQueryResponse followed by CommandComplete. -/
theorem default_query_reply_counterexample :
    (pg_default_query_callback (str ("SELECT 1"))).1.map frameType = [73] ∧
    ([73] : List Nat) ≠ [73, 67] ∧
    (PgQuery.pg_default_query_callback 73 (str ("SELECT 1"))).2.1.map frameType
      = [84, 68, 68, 67, 90] ∧
    ((PgQuery.pg_default_query_callback 73 (str ("SELECT 1"))).2.1.map frameType).contains 73
      = false := by decide

/-- C7 (amended): for every Query message, the default query handler of
pg_server.c replies with exactly one EmptyQueryResponse frame and no
CommandComplete; the EmptyQueryResponse-followed-by-CommandComplete pair is
the reply of the default execute handler. -/
theorem default_query_and_execute_replies (q portal : List Nat) (max_rows : Int) :
    (pg_default_query_callback q).1 = [[73, 0, 0, 0, 4]] ∧
    (pg_default_execute_callback portal max_rows).1
      = [[73, 0, 0, 0, 4], [67, 0, 0, 0, 5, 0]] :=
  ⟨rfl, rfl⟩

/-! ## Transaction status (C8) -/

/-- C8: for every simple query whose first word is BEGIN the session's
transaction status becomes `T` (84), for COMMIT or ROLLBACK it becomes `I`
(73), and the ReadyForQuery frame emitted for that query carries the
post-command status (the last conjunct shows a ReadyForQuery frame's payload
is exactly its status byte, and each branch's ReadyForQuery is built from the
just-assigned status). -/
theorem txn_status_post_command (txn : Nat) (q : List Nat) :
    (PgQuery.firstWord q = str ("BEGIN") →
      PgQuery.pg_default_query_callback txn q =
        (84, [pg_send_command_complete (str ("BEGIN")), pg_send_ready_for_query 84], 0)) ∧
    (PgQuery.firstWord q = str ("COMMIT") →
      PgQuery.pg_default_query_callback txn q =
        (73, [pg_send_command_complete (str ("COMMIT")), pg_send_ready_for_query 73], 0)) ∧
    (PgQuery.firstWord q = str ("ROLLBACK") →
      PgQuery.pg_default_query_callback txn q =
        (73, [pg_send_command_complete (str ("ROLLBACK")), pg_send_ready_for_query 73], 0)) ∧
    (∀ s : Nat, framePayload (pg_send_ready_for_query s) = [s]) := by
  refine ⟨?_, ?_, ?_, ?_⟩
  · intro h
    have ht : PgQuery.pg_get_query_type q = PgQuery.QueryType.BEGIN := by
      rw [PgQuery.pg_get_query_type, h]; decide
    unfold PgQuery.pg_default_query_callback
    rw [ht]
    rfl
  · intro h
    have ht : PgQuery.pg_get_query_type q = PgQuery.QueryType.COMMIT := by
      rw [PgQuery.pg_get_query_type, h]; decide
    unfold PgQuery.pg_default_query_callback
    rw [ht]
    rfl
  · intro h
    have ht : PgQuery.pg_get_query_type q = PgQuery.QueryType.ROLLBACK := by
      rw [PgQuery.pg_get_query_type, h]; decide
    unfold PgQuery.pg_default_query_callback
    rw [ht]
    rfl
  · intro s
    simp [pg_send_ready_for_query, pg_send_message, framePayload, be32]

/-- C8 (witness): a lowercase `begin` query (whose uppercased first word is
BEGIN) moves the status to `T` = 84 and the ReadyForQuery carries 84. -/
theorem txn_status_post_command_witness :
    PgQuery.pg_default_query_callback 73 (str ("begin")) =
      (84, [pg_send_command_complete (str ("BEGIN")), pg_send_ready_for_query 84], 0) :=
  (txn_status_post_command 73 (str ("begin"))).1 (by decide)

/-! ## Live-session table (C9) -/

theorem optFdNe_none_left (o : Option PGClientConn) : OptFdNe none o := by
  intro a b ha
  cases ha

theorem optFdNe_none_right (o : Option PGClientConn) : OptFdNe o none := by
  intro a b ha hb
  cases hb

theorem pairwise_replicate_none (n : Nat) :
    (List.replicate n (none : Option PGClientConn)).Pairwise OptFdNe := by
  induction n with
  | zero => simp
  | succ n ih =>
    rw [List.replicate_succ]
    exact List.Pairwise.cons (fun o ho => optFdNe_none_left o) ih

theorem mem_liveFds {s : PGServerState} {c : PGClientConn}
    (h : some c ∈ s.clients) : c.fd ∈ liveFds s :=
  List.mem_filterMap.mpr ⟨some c, h, rfl⟩

theorem placeFirst_mem {x : PGClientConn} :
    ∀ {l l' : List (Option PGClientConn)}, placeFirst x l = some l' →
      ∀ o ∈ l', o = some x ∨ o ∈ l := by
  intro l
  induction l with
  | nil => intro l' h; simp [placeFirst] at h
  | cons hd rest ih =>
    intro l' h o ho
    cases hd with
    | none =>
      simp only [placeFirst, Option.some.injEq] at h
      subst h
      rcases List.mem_cons.mp ho with h1 | h1
      · exact Or.inl h1
      · exact Or.inr (List.mem_cons_of_mem _ h1)
    | some c =>
      simp only [placeFirst, Option.map_eq_some'] at h
      obtain ⟨rest', hr, hl⟩ := h
      subst hl
      rcases List.mem_cons.mp ho with h1 | h1
      · exact Or.inr (h1 ▸ List.mem_cons_self _ _)
      · rcases ih hr o h1 with h2 | h2
        · exact Or.inl h2
        · exact Or.inr (List.mem_cons_of_mem _ h2)

theorem placeFirst_pairwise {x : PGClientConn} :
    ∀ {l l' : List (Option PGClientConn)}, placeFirst x l = some l' →
      l.Pairwise OptFdNe → (∀ c : PGClientConn, some c ∈ l → c.fd ≠ x.fd) →
      l'.Pairwise OptFdNe := by
  intro l
  induction l with
  | nil => intro l' h; simp [placeFirst] at h
  | cons hd rest ih =>
    intro l' h hp hfresh
    cases hd with
    | none =>
      simp only [placeFirst, Option.some.injEq] at h
      subst h
      refine List.Pairwise.cons ?_ (List.Pairwise.of_cons hp)
      intro o ho a b ha hb
      obtain rfl := Option.some.inj ha
      subst hb
      have hbmem : some b ∈ (none : Option PGClientConn) :: rest :=
        List.mem_cons_of_mem _ ho
      intro hfd
      exact hfresh b hbmem hfd.symm
    | some c =>
      simp only [placeFirst, Option.map_eq_some'] at h
      obtain ⟨rest', hr, hl⟩ := h
      subst hl
      rcases List.pairwise_cons.mp hp with ⟨hhead, htail⟩
      refine List.Pairwise.cons ?_
        (ih hr htail (fun d hd => hfresh d (List.mem_cons_of_mem _ hd)))
      intro o ho a b ha hb
      obtain rfl := Option.some.inj ha
      subst hb
      rcases placeFirst_mem hr _ ho with h1 | h1
      · obtain rfl := Option.some.inj h1
        exact hfresh c (List.mem_cons_self _ _)
      · exact hhead _ h1 c b rfl rfl

theorem clearFirstFd_mem {fd : Nat} :
    ∀ {l : List (Option PGClientConn)} (o : Option PGClientConn),
      o ∈ clearFirstFd fd l → o = none ∨ o ∈ l := by
  intro l
  induction l with
  | nil => intro o ho; simp [clearFirstFd] at ho
  | cons hd rest ih =>
    intro o ho
    cases hd with
    | none =>
      simp only [clearFirstFd] at ho
      rcases List.mem_cons.mp ho with h1 | h1
      · exact Or.inl h1
      · rcases ih o h1 with h2 | h2
        · exact Or.inl h2
        · exact Or.inr (List.mem_cons_of_mem _ h2)
    | some c =>
      simp only [clearFirstFd] at ho
      by_cases hc : c.fd = fd
      · rw [if_pos hc] at ho
        rcases List.mem_cons.mp ho with h1 | h1
        · exact Or.inl h1
        · exact Or.inr (List.mem_cons_of_mem _ h1)
      · rw [if_neg hc] at ho
        rcases List.mem_cons.mp ho with h1 | h1
        · exact Or.inr (h1 ▸ List.mem_cons_self _ _)
        · rcases ih o h1 with h2 | h2
          · exact Or.inl h2
          · exact Or.inr (List.mem_cons_of_mem _ h2)

theorem clearFirstFd_pairwise {fd : Nat} :
    ∀ {l : List (Option PGClientConn)}, l.Pairwise OptFdNe →
      (clearFirstFd fd l).Pairwise OptFdNe := by
  intro l
  induction l with
  | nil => intro h; simp [clearFirstFd]
  | cons hd rest ih =>
    intro hp
    rcases List.pairwise_cons.mp hp with ⟨hhead, htail⟩
    cases hd with
    | none =>
      simp only [clearFirstFd]
      refine List.Pairwise.cons ?_ (ih htail)
      intro o ho
      exact optFdNe_none_left o
    | some c =>
      simp only [clearFirstFd]
      by_cases hc : c.fd = fd
      · rw [if_pos hc]
        exact List.Pairwise.cons (fun o ho => optFdNe_none_left o) htail
      · rw [if_neg hc]
        refine List.Pairwise.cons ?_ (ih htail)
        intro o ho
        rcases clearFirstFd_mem o ho with h1 | h1
        · exact h1 ▸ optFdNe_none_right _
        · exact hhead o h1

theorem tableInv_add {g max : Nat} {s : PGServerState} {fd secret : Nat}
    (hs : TableInv g s.clients) (hfresh : fd ∉ liveFds s) :
    TableInv g (pg_server_add_client g max s fd secret).clients := by
  unfold pg_server_add_client
  by_cases hcap : max ≤ s.num_clients
  · rw [if_pos hcap]; exact hs
  · rw [if_neg hcap]
    cases h : placeFirst (newClient g fd secret) s.clients with
    | none => exact hs
    | some cl =>
      have hfresh' : ∀ c : PGClientConn, some c ∈ s.clients → c.fd ≠ fd := by
        intro c hc hfd
        exact hfresh (hfd ▸ mem_liveFds hc)
      refine ⟨placeFirst_pairwise h hs.1 hfresh', ?_⟩
      intro c hc
      rcases placeFirst_mem h (some c) hc with h1 | h1
      · cases h1
        rfl
      · exact hs.2 c h1

theorem tableInv_remove {g : Nat} {s : PGServerState} {fd : Nat}
    (hs : TableInv g s.clients) :
    TableInv g (pg_server_remove_client s fd).clients := by
  unfold pg_server_remove_client
  by_cases hin : s.clients.any (fun o => o.elim false (fun c => c.fd == fd))
  · rw [if_pos hin]
    refine ⟨clearFirstFd_pairwise hs.1, ?_⟩
    intro c hc
    rcases clearFirstFd_mem (some c) hc with h1 | h1
    · cases h1
    · exact hs.2 c h1
  · rw [if_neg hin]; exact hs

theorem reach_tableInv {g max : Nat} {s : PGServerState} (h : Reach g max s) :
    TableInv g s.clients := by
  induction h with
  | init =>
    refine ⟨pairwise_replicate_none max, ?_⟩
    intro c hc
    have := List.eq_of_mem_replicate hc
    cases this
  | add _ hfresh ih => exact tableInv_add ih hfresh
  | remove _ ih => exact tableInv_remove ih

theorem getD_some_of_clients {l : List (Option PGClientConn)} {i : Nat}
    {a : PGClientConn} (h : l.getD i none = some a) :
    ∃ hi : i < l.length, l.get ⟨i, hi⟩ = some a := by
  induction l generalizing i with
  | nil => simp [List.getD] at h
  | cons hd tl ih =>
    cases i with
    | zero => exact ⟨by simp, by simpa using h⟩
    | succ n =>
      obtain ⟨hn, hg⟩ := ih (by simpa using h)
      exact ⟨by simpa [Nat.succ_lt_succ_iff] using hn, by simpa using hg⟩

/-- C9: in every server state reachable through the reactor, any two distinct
slots of the live-session table hold sessions with distinct
`(backend_pid, secret_key)` pairs: the pid is `getpid() + fd` and the OS
never hands out an fd that is already open, so live pids are distinct
whatever `rand()` returned for the secrets. -/
theorem pid_secret_pairs_distinct {g max : Nat} {s : PGServerState}
    (hs : Reach g max s) {i j : Nat} (hij : i ≠ j) {a b : PGClientConn}
    (ha : s.clients.getD i none = some a) (hb : s.clients.getD j none = some b) :
    (a.backend_pid, a.secret_key) ≠ (b.backend_pid, b.secret_key) := by
  obtain ⟨hpw, hpid⟩ := reach_tableInv hs
  obtain ⟨hi, hga⟩ := getD_some_of_clients ha
  obtain ⟨hj, hgb⟩ := getD_some_of_clients hb
  have hamem : some a ∈ s.clients := hga ▸ List.get_mem s.clients i hi
  have hbmem : some b ∈ s.clients := hgb ▸ List.get_mem s.clients j hj
  have hfd : a.fd ≠ b.fd := by
    rcases Nat.lt_or_ge i j with hlt | hge
    · have := List.pairwise_iff_get.mp hpw ⟨i, hi⟩ ⟨j, hj⟩ hlt
      exact this a b hga hgb
    · have hlt' : j < i := Nat.lt_of_le_of_ne hge (fun e => hij e.symm)
      have := List.pairwise_iff_get.mp hpw ⟨j, hj⟩ ⟨i, hi⟩ hlt'
      exact fun e => this b a hgb hga e.symm
  intro hpair
  have hpid_eq : a.backend_pid = b.backend_pid := congrArg Prod.fst hpair
  rw [hpid a hamem, hpid b hbmem] at hpid_eq
  exact hfd (Nat.add_left_cancel hpid_eq)

/-- C9 (witness): after accepting fds 3 and 4 on a fresh two-slot server, the
two live sessions' (pid, secret) pairs differ. -/
theorem pid_secret_pairs_distinct_witness :
    ((newClient 100 3 111).backend_pid, (newClient 100 3 111).secret_key) ≠
      ((newClient 100 4 222).backend_pid, (newClient 100 4 222).secret_key) :=
  pid_secret_pairs_distinct
    (s := serverTwo)
    (Reach.add (Reach.add Reach.init (by decide)) (by decide))
    (i := 0) (j := 1) (by decide)
    (show serverTwo.clients.getD 0 none = some (newClient 100 3 111) by decide)
    (show serverTwo.clients.getD 1 none = some (newClient 100 4 222) by decide)

/-! ## MD5 password hashing (C10) -/

theorem hex_digit_eq (n : Nat) (h : n < 16) : hex_chars.getD n 0 = hexDigitSpec n := by
  interval_cases n <;> rfl

theorem byte_hex_eq (b : Nat) (hb : b < 256) :
    [hex_chars.getD ((b >>> 4) &&& 15) 0, hex_chars.getD (b &&& 15) 0]
      = [hexDigitSpec (b / 16), hexDigitSpec (b % 16)] := by
  have hand : ∀ m : Nat, m &&& 15 = m % 16 := by
    intro m
    have := Nat.and_pow_two_sub_one_eq_mod m 4
    norm_num at this
    exact this
  have hshift : b >>> 4 = b / 16 := by
    rw [Nat.shiftRight_eq_div_pow]
  have h1 : (b >>> 4) &&& 15 = b / 16 := by
    rw [hshift, hand, Nat.mod_eq_of_lt (by omega)]
  rw [h1, hand, hex_digit_eq _ (by omega), hex_digit_eq _ (by omega)]

theorem bin_to_hex_eq_spec (l : List Nat) (hl : ∀ b ∈ l, b < 256) :
    bin_to_hex l = hexEncodeSpec l := by
  induction l with
  | nil => rfl
  | cons b rest ih =>
    have hb : b < 256 := hl b (List.mem_cons_self _ _)
    have hrest := ih (fun x hx => hl x (List.mem_cons_of_mem _ hx))
    calc bin_to_hex (b :: rest)
        = [hex_chars.getD ((b >>> 4) &&& 15) 0, hex_chars.getD (b &&& 15) 0]
            ++ bin_to_hex rest := rfl
      _ = [hexDigitSpec (b / 16), hexDigitSpec (b % 16)] ++ hexEncodeSpec rest := by
          rw [byte_hex_eq b hb, hrest]
      _ = hexEncodeSpec (b :: rest) := rfl

theorem bin_to_hex_length (l : List Nat) : (bin_to_hex l).length = 2 * l.length := by
  induction l with
  | nil => rfl
  | cons b rest ih =>
    have : bin_to_hex (b :: rest)
        = [hex_chars.getD ((b >>> 4) &&& 15) 0, hex_chars.getD (b &&& 15) 0]
            ++ bin_to_hex rest := rfl
    rw [this, List.length_append, ih]
    simp only [List.length_cons, List.length_nil]
    omega

/-- C10: for every password, username and salt, and any MD5 primitive whose
digests are 16 bytes, `pg_md5_hash` produces `md5` followed by the lowercase
hexadecimal encoding of `MD5(hex(MD5(password ++ username)) ++ salt)` — the
PostgreSQL double-MD5 scheme — and the output is exactly 35 characters (the
NUL terminator the C code appends is not part of the content). -/
theorem pg_md5_hash_spec (md5 : List Nat → List Nat) (password username salt : List Nat)
    (hlen : ∀ l, (md5 l).length = 16) (hbyte : ∀ l, ∀ b ∈ md5 l, b < 256) :
    pg_md5_hash md5 password username salt
      = str ("md5") ++
          hexEncodeSpec (md5 (hexEncodeSpec (md5 (password ++ username)) ++ salt)) ∧
    (pg_md5_hash md5 password username salt).length = 35 := by
  have h1 : bin_to_hex (md5 (password ++ username))
      = hexEncodeSpec (md5 (password ++ username)) :=
    bin_to_hex_eq_spec _ (hbyte _)
  constructor
  · show str ("md5") ++
        bin_to_hex (md5 (bin_to_hex (md5 (password ++ username)) ++ salt)) = _
    rw [bin_to_hex_eq_spec _ (hbyte _), h1]
  · show (str ("md5") ++
        bin_to_hex (md5 (bin_to_hex (md5 (password ++ username)) ++ salt))).length = 35
    rw [List.length_append, bin_to_hex_length, hlen]
    decide

/-- C10 (witness): the parametric statement instantiated at a concrete MD5
stand-in and concrete credential strings. -/
theorem pg_md5_hash_spec_witness :
    pg_md5_hash md5stub (str ("pw")) (str ("bob")) (str ("salt"))
      = str ("md5") ++
          hexEncodeSpec (md5stub
            (hexEncodeSpec (md5stub (str ("pw") ++ str ("bob"))) ++ str ("salt"))) ∧
    (pg_md5_hash md5stub (str ("pw")) (str ("bob")) (str ("salt"))).length = 35 :=
  pg_md5_hash_spec md5stub (str ("pw")) (str ("bob")) (str ("salt"))
    (fun l => by simp [md5stub])
    (fun l b hb => by
      simp only [md5stub, List.mem_range] at hb
      omega)
